import Mathlib

/-!
Verification of the live-fanout subsystem of a gRPC task-management service:
the chat room registry (`services/ChatService.js`) and the streaming-session
registry with its event dispatcher (`services/TaskService.js`).

Connections are identified by natural numbers.  A connection write
(`call.write(...)`) can throw; the set of connections whose write throws is
passed explicitly as the list `broken`.  Each operation is embedded as a pure
function returning the writes it performed together with the updated registry
state.  JavaScript `Map`s are modelled as association lists in insertion
order (`Map.set` on a fresh key appends at the end, `Map.delete` removes the
unique entry with that key); JavaScript `Set`s are modelled as duplicate-free
lists in insertion order.
-/

namespace GrpcFanout

/-! ## Chat data model (services/ChatService.js) -/

/-- Whitespace as stripped by JavaScript `String.prototype.trim` (the ASCII
subset that can occur in the messages at hand). -/
def jsWhitespace (c : Char) : Bool :=
  c == ' ' || c == '\t' || c == '\n' || c == '\r'

/-- JavaScript `s.trim()`: strip leading and trailing whitespace. -/
def jsTrim (s : String) : String :=
  ⟨((s.data.dropWhile jsWhitespace).reverse.dropWhile jsWhitespace).reverse⟩

/-- The authenticated chat user as decoded from the JWT (`{ id, username }`). -/
structure ChatUser where
  id : String
  username : String
deriving DecidableEq

/-- One chat message as written to a connection: the object literal built in
the `Chat` handler (`{room, text, sender_id, sender_name, timestamp, type}`). -/
structure ChatMessage where
  room : String
  text : String
  sender_id : String
  sender_name : String
  timestamp : Nat
  type : Nat
deriving DecidableEq

/-- The room registry `this.rooms : Map<string, Set<call>>`, as an association
list from room name to the member list (insertion order). -/
abbrev RoomReg := List (String × List Nat)

/-- `this.rooms.get(room)` / `this.rooms.has(room)`: first entry whose key is
the room name. -/
def lookupRoom (r : String) : RoomReg → Option (List Nat)
  | [] => none
  | (r', ms) :: rest => if r' = r then some ms else lookupRoom r rest

/-- The join step of the `Chat` data handler: `_ensureRoom(room)` (create the
entry with a fresh empty set when absent, `Map.set` appending at the end)
followed by `set.add(call)` (a no-op when the connection is already a member,
since a `Set` holds no duplicates). -/
def joinRoom (r : String) (c : Nat) : RoomReg → RoomReg
  | [] => [(r, [c])]
  | (r', ms) :: rest =>
      if r' = r then (r', if c ∈ ms then ms else ms ++ [c]) :: rest
      else (r', ms) :: joinRoom r c rest

/-- The registry part of `leaveRoom` in the `Chat` handler: when the room is
present, `set.delete(call)` and, if the set became empty,
`this.rooms.delete(joinedRoom)`; when the room is absent, nothing happens. -/
def leaveRoom (r : String) (c : Nat) : RoomReg → RoomReg
  | [] => []
  | (r', ms) :: rest =>
      if r' = r then
        if ms.erase c = [] then rest else (r', ms.erase c) :: rest
      else (r', ms) :: leaveRoom r c rest

/-- The per-member loop of `_broadcast`: skip `exceptCall`, then
`try { c.write(message) } catch (_) {}` — a member whose write throws (its
connection is in `broken`) produces no delivery and the failure is swallowed;
the loop continues and the member set is not touched. -/
def broadcastWrites (msg : ChatMessage) (except : Option Nat) (broken : List Nat) :
    List Nat → List (Nat × ChatMessage)
  | [] => []
  | c :: cs =>
      if some c = except then broadcastWrites msg except broken cs
      else if c ∈ broken then broadcastWrites msg except broken cs
      else (c, msg) :: broadcastWrites msg except broken cs

/-- `_broadcast(room, message, exceptCall)`: look the room up (absent room:
no writes), write to every member except `exceptCall`, swallowing per-member
write failures.  `_broadcast` never mutates the member set, so the registry
component of the result equals the input registry. -/
def chatBroadcast (room : String) (msg : ChatMessage) (except : Option Nat)
    (broken : List Nat) (rooms : RoomReg) : List (Nat × ChatMessage) × RoomReg :=
  match lookupRoom room rooms with
  | none => ([], rooms)
  | some ms => (broadcastWrites msg except broken ms, rooms)

/-- The text step of the `Chat` data handler, reached once `joinedRoom` is
set: `if (msg.text && msg.text.trim())` (equivalent to: the trimmed text is
non-empty, since `"".trim() === ""`), build the outbound message with the
trimmed text and `type: 0` and call `this._broadcast(joinedRoom, out, null)` —
note the exclusion argument is `null`, not the sending connection. -/
def handleText (user : ChatUser) (joinedRoom : String) (text : String) (now : Nat)
    (broken : List Nat) (rooms : RoomReg) : List (Nat × ChatMessage) :=
  if jsTrim text ≠ "" then
    (chatBroadcast joinedRoom
      ⟨joinedRoom, jsTrim text, user.id, user.username, now, 0⟩ none broken rooms).1
  else []

/-- No orphan rooms: every entry of the registry has a non-empty member set,
i.e. a room name is present as a key only when members exist. -/
def noOrphanRooms (rooms : RoomReg) : Prop := ∀ p ∈ rooms, p.2 ≠ []

instance (rooms : RoomReg) : Decidable (noOrphanRooms rooms) := by
  unfold noOrphanRooms; infer_instance

/-- Key uniqueness of the room registry (automatic for a JavaScript `Map`). -/
def roomKeysNodup (rooms : RoomReg) : Prop := (rooms.map Prod.fst).Nodup

instance (rooms : RoomReg) : Decidable (roomKeysNodup rooms) := by
  unfold roomKeysNodup; infer_instance

/-! ## Task data model (services/TaskService.js) -/

/-- The fields of a `Task` record that the fanout subsystem reads:
`userId` for owner matching and `completed` for the stream filter; `id` and
`title` are carried along as payload. -/
structure Task where
  id : String
  title : String
  completed : Bool
  userId : String
deriving DecidableEq

/-- The action-name strings passed to `notifyStreams` and keyed in its
`notificationTypeMap` literal. -/
inductive TaskAction
  | TASK_CREATED
  | TASK_UPDATED
  | TASK_DELETED
  | TASK_COMPLETED
deriving DecidableEq

/-- The string each `TaskAction` constructor stands for. -/
def actionName : TaskAction → String
  | .TASK_CREATED => "TASK_CREATED"
  | .TASK_UPDATED => "TASK_UPDATED"
  | .TASK_DELETED => "TASK_DELETED"
  | .TASK_COMPLETED => "TASK_COMPLETED"

/-- The `notificationTypeMap` object literal of `notifyStreams`:
`{TASK_CREATED: 0, TASK_UPDATED: 1, TASK_DELETED: 2, TASK_COMPLETED: 3}`. -/
def notificationTypeMap : TaskAction → Nat
  | .TASK_CREATED => 0
  | .TASK_UPDATED => 1
  | .TASK_DELETED => 2
  | .TASK_COMPLETED => 3

/-- `action.toLowerCase().replace('_', ' ')`, evaluated on each of the four
constant action names. -/
def actionNameLowerSpaced : TaskAction → String
  | .TASK_CREATED => "task created"
  | .TASK_UPDATED => "task updated"
  | .TASK_DELETED => "task deleted"
  | .TASK_COMPLETED => "task completed"

/-- The human-readable summary built in `notifyStreams`:
`` `Tarefa ${action.toLowerCase().replace('_', ' ')}` ``. -/
def actionMessage (a : TaskAction) : String :=
  "Tarefa " ++ actionNameLowerSpaced a

/-- A notification envelope as written to a `NotificationStream` connection:
`{type, task, message, timestamp}` (the initial greeting envelope carries
`task: null`, hence the `Option`). -/
structure Envelope where
  type : Nat
  task : Option Task
  message : String
  timestamp : Nat
deriving DecidableEq

/-- What a single `call.write(...)` in `TaskService` carries: either the bare
protobuf view of a task (TaskStream) or a notification envelope. -/
inductive Payload
  | taskPB (t : Task)
  | envelope (e : Envelope)
deriving DecidableEq

/-- The shape of a `streamingSessions` entry: `streamTasks` stores
`{call, userId, filter: {completed}}` (the filter object is always present,
its `completed` field may be `undefined`); `streamNotifications` stores
`{call, userId, type: 'notifications'}`. -/
inductive SessionKind
  | taskStream (completed : Option Bool)
  | notifications
deriving DecidableEq

/-- One entry value of `this.streamingSessions`; the connection (`call`) is
identified by `connId`. -/
structure Session where
  userId : String
  connId : Nat
  kind : SessionKind
deriving DecidableEq

/-- `this.streamingSessions : Map<sessionId, Session>` in insertion order. -/
abbrev SessionReg := List (String × Session)

/-- The write attempted for one owner-matching session in the body of
`notifyStreams`: a notification session is always written an envelope; a task
session is written the task iff the filter matches
(`completed === undefined || completed === task.completed`) and the action is
not `TASK_DELETED`; otherwise no write is attempted. -/
def sessionAttempt (action : TaskAction) (task : Task) (now : Nat) (s : Session) :
    Option Payload :=
  match s.kind with
  | .notifications =>
      some (.envelope ⟨notificationTypeMap action, some task, actionMessage action, now⟩)
  | .taskStream completed =>
      if (match completed with
          | none => true
          | some b => b == task.completed) && !(action == .TASK_DELETED) then
        some (.taskPB task)
      else none

/-- `notifyStreams(action, task)`: iterate the session map in insertion order;
for each session whose `userId` equals `task.userId`, attempt the write
dictated by its kind and filter; a write that throws (connection in `broken`)
is caught and the session is deleted from the map (`Map.delete` of the
current key during iteration is safe in JavaScript and does not affect the
remaining entries).  Returns the successful writes in order and the resulting
session map. -/
def notifyStreams (action : TaskAction) (task : Task) (now : Nat) (broken : List Nat) :
    SessionReg → List (Nat × Payload) × SessionReg
  | [] => ([], [])
  | (sid, s) :: rest =>
      let r := notifyStreams action task now broken rest
      if s.userId = task.userId then
        match sessionAttempt action task now s with
        | some pl =>
            if s.connId ∈ broken then (r.1, r.2)
            else ((s.connId, pl) :: r.1, (sid, s) :: r.2)
        | none => (r.1, (sid, s) :: r.2)
      else (r.1, (sid, s) :: r.2)

/-- `this.streamingSessions.delete(sessionId)`: remove the unique entry with
that key; removing an absent key is a no-op. -/
def unregister (sid : String) : SessionReg → SessionReg
  | [] => []
  | (sid', s) :: rest => if sid' = sid then rest else (sid', s) :: unregister sid rest

/-- Key uniqueness of the session registry (automatic for a JavaScript `Map`;
ids come from `uuidv4()`). -/
def sessionKeysNodup (sessions : SessionReg) : Prop :=
  (sessions.map Prod.fst).Nodup

instance (sessions : SessionReg) : Decidable (sessionKeysNodup sessions) := by
  unfold sessionKeysNodup; infer_instance

/-- The post-authentication body of `streamNotifications`: register the
session (`Map.set` with a fresh uuid appends at the end), then write the
initial envelope `{type: 0, message: 'Stream de notificações iniciado',
timestamp, task: null}`.  Registration and the initial write happen in one
synchronous step, before control returns to the event loop, so no dispatch
can interleave; the write list of this operation is exactly the one initial
envelope. -/
def streamNotifications (userId : String) (sid : String) (conn : Nat) (now : Nat)
    (sessions : SessionReg) : SessionReg × List (Nat × Payload) :=
  (sessions ++ [(sid, ⟨userId, conn, .notifications⟩)],
   [(conn, .envelope ⟨0, none, "Stream de notificações iniciado", now⟩)])

/-- One call into the dispatcher: `this.notifyStreams(action, task)`. -/
structure DispatchCall where
  action : TaskAction
  task : Task
deriving DecidableEq

/-- The store-write-to-dispatch core of `createTask`: the `INSERT` runs first
(`database.run` resolving to its `changes` count, or rejecting); only when it
resolves does `this.notifyStreams('TASK_CREATED', task)` run — a rejection is
caught and no dispatch happens.  The `changes` count is not inspected.
Returns the dispatcher calls made and whether the success callback fired. -/
def createTask (t : Task) (ins : Except String Nat) : List DispatchCall × Bool :=
  match ins with
  | .error _ => ([], false)
  | .ok _ => ([⟨.TASK_CREATED, t⟩], true)

/-- The store-write-to-dispatch core of `updateTask`: the `UPDATE` runs first;
a rejection is caught with no dispatch, and `if (result.changes === 0)` an
internal error is thrown, also before any dispatch; otherwise the re-read row
`updated` is dispatched as `TASK_UPDATED`. -/
def updateTask (updated : Task) (upd : Except String Nat) : List DispatchCall × Bool :=
  match upd with
  | .error _ => ([], false)
  | .ok changes =>
      if changes = 0 then ([], false) else ([⟨.TASK_UPDATED, updated⟩], true)

/-- The store-write-to-dispatch core of `deleteTask`: the `DELETE` runs first;
a rejection is caught with no dispatch, `if (result.changes === 0)` an
internal error is thrown before any dispatch; otherwise the previously read
row `existing` is dispatched as `TASK_DELETED`. -/
def deleteTask (existing : Task) (del : Except String Nat) : List DispatchCall × Bool :=
  match del with
  | .error _ => ([], false)
  | .ok changes =>
      if changes = 0 then ([], false) else ([⟨.TASK_DELETED, existing⟩], true)

/-- The notification type an individual write carries, when it is an
envelope. -/
def envelopeType : Payload → Option Nat
  | .taskPB _ => none
  | .envelope e => some e.type

/-! ## Helper lemmas -/

theorem broadcastWrites_no_exclusion (msg : ChatMessage) (broken : List Nat)
    (ms : List Nat) :
    broadcastWrites msg none broken ms =
      (ms.filter (fun c => !broken.contains c)).map (fun c => (c, msg)) := by
  induction ms with
  | nil => rfl
  | cons c cs ih =>
      by_cases h : c ∈ broken <;>
        simp [broadcastWrites, List.filter_cons, h, ih, List.elem_iff]

/-- Characterization of `notifyStreams`: the writes are the owner-matching
attempted writes on unbroken connections, in session order; the surviving
sessions are exactly those whose write did not throw. -/
theorem notifyStreams_characterized (action : TaskAction) (task : Task) (now : Nat)
    (broken : List Nat) (sessions : SessionReg) :
    notifyStreams action task now broken sessions =
      (sessions.filterMap (fun p =>
          if p.2.userId = task.userId then
            match sessionAttempt action task now p.2 with
            | some pl => if p.2.connId ∈ broken then none else some (p.2.connId, pl)
            | none => none
          else none),
       sessions.filter (fun p =>
          !(p.2.userId == task.userId &&
            ((sessionAttempt action task now p.2).isSome && broken.contains p.2.connId)))) := by
  induction sessions with
  | nil => rfl
  | cons p rest ih =>
      obtain ⟨sid, s⟩ := p
      by_cases h1 : s.userId = task.userId
      · cases hA : sessionAttempt action task now s with
        | none =>
            simp [notifyStreams, ih, h1, hA, List.filterMap_cons, List.filter_cons]
        | some pl =>
            by_cases h2 : s.connId ∈ broken <;>
              simp [notifyStreams, ih, h1, hA, h2, List.filterMap_cons, List.filter_cons,
                List.elem_iff]
      · simp [notifyStreams, ih, h1, List.filterMap_cons, List.filter_cons]

/-- Every member set of the room registry is duplicate-free (automatic for a
JavaScript `Set`). -/
def memberSetsNodup (rooms : RoomReg) : Prop := ∀ p ∈ rooms, p.2.Nodup

instance (rooms : RoomReg) : Decidable (memberSetsNodup rooms) := by
  unfold memberSetsNodup; infer_instance

theorem actionMessage_deleted : actionMessage .TASK_DELETED = "Tarefa task deleted" := by
  decide

theorem contains_singleton (k x : Nat) : ([k].contains x) = (x == k) := by
  simp only [List.contains, List.elem]
  cases h : x == k <;> simp

theorem lookupRoom_eq_none_of_not_mem (r : String) (rooms : RoomReg)
    (h : r ∉ rooms.map Prod.fst) : lookupRoom r rooms = none := by
  induction rooms with
  | nil => rfl
  | cons p rest ih =>
      obtain ⟨r', ms⟩ := p
      simp only [List.map_cons, List.mem_cons, not_or] at h
      simp only [lookupRoom, if_neg (Ne.symm h.1), ih h.2]

theorem lookupRoom_joinRoom_of_none (rooms : RoomReg) (r : String) (c : Nat)
    (h : lookupRoom r rooms = none) :
    lookupRoom r (joinRoom r c rooms) = some [c] := by
  induction rooms with
  | nil => simp [joinRoom, lookupRoom]
  | cons p rest ih =>
      obtain ⟨r', ms⟩ := p
      by_cases hr : r' = r
      · rw [lookupRoom, if_pos hr] at h
        exact absurd h (by simp)
      · rw [lookupRoom, if_neg hr] at h
        simp only [joinRoom, if_neg hr, lookupRoom, ih h]

theorem noOrphanRooms_joinRoom (rooms : RoomReg) (r : String) (c : Nat)
    (h : noOrphanRooms rooms) : noOrphanRooms (joinRoom r c rooms) := by
  induction rooms with
  | nil => intro p hp; simp [joinRoom] at hp; simp [hp]
  | cons q rest ih =>
      obtain ⟨r', ms⟩ := q
      have hrest : noOrphanRooms rest := fun p hp => h p (List.mem_cons_of_mem _ hp)
      by_cases hr : r' = r
      · intro p hp
        rw [joinRoom, if_pos hr] at hp
        rcases List.mem_cons.1 hp with hp | hp
        · subst hp
          by_cases hc : c ∈ ms <;>
            simp only [if_pos, if_neg, hc, ite_true, ite_false]
          · exact h (r', ms) (List.mem_cons_self _ _)
          · simp
        · exact hrest p hp
      · intro p hp
        rw [joinRoom, if_neg hr] at hp
        rcases List.mem_cons.1 hp with hp | hp
        · subst hp; exact h (r', ms) (List.mem_cons_self _ _)
        · exact ih hrest p hp

theorem noOrphanRooms_leaveRoom (rooms : RoomReg) (r : String) (c : Nat)
    (h : noOrphanRooms rooms) : noOrphanRooms (leaveRoom r c rooms) := by
  induction rooms with
  | nil => intro p hp; simp [leaveRoom] at hp
  | cons q rest ih =>
      obtain ⟨r', ms⟩ := q
      have hrest : noOrphanRooms rest := fun p hp => h p (List.mem_cons_of_mem _ hp)
      by_cases hr : r' = r
      · rw [leaveRoom, if_pos hr]
        by_cases he : ms.erase c = []
        · rw [if_pos he]; exact hrest
        · rw [if_neg he]
          intro p hp
          rcases List.mem_cons.1 hp with hp | hp
          · subst hp; exact he
          · exact hrest p hp
      · rw [leaveRoom, if_neg hr]
        intro p hp
        rcases List.mem_cons.1 hp with hp | hp
        · subst hp; exact h (r', ms) (List.mem_cons_self _ _)
        · exact ih hrest p hp

theorem leaveRoom_of_not_mem (r : String) (c : Nat) (rooms : RoomReg)
    (h : r ∉ rooms.map Prod.fst) : leaveRoom r c rooms = rooms := by
  induction rooms with
  | nil => rfl
  | cons p rest ih =>
      obtain ⟨r', ms⟩ := p
      simp only [List.map_cons, List.mem_cons, not_or] at h
      rw [leaveRoom, if_neg (Ne.symm h.1), ih h.2]

theorem unregister_of_not_mem (sid : String) (sessions : SessionReg)
    (h : sid ∉ sessions.map Prod.fst) : unregister sid sessions = sessions := by
  induction sessions with
  | nil => rfl
  | cons p rest ih =>
      obtain ⟨sid', s⟩ := p
      simp only [List.map_cons, List.mem_cons, not_or] at h
      rw [unregister, if_neg (Ne.symm h.1), ih h.2]

theorem unregister_idem (sid : String) (sessions : SessionReg)
    (h : sessionKeysNodup sessions) :
    unregister sid (unregister sid sessions) = unregister sid sessions := by
  induction sessions with
  | nil => rfl
  | cons p rest ih =>
      obtain ⟨sid', s⟩ := p
      rw [sessionKeysNodup, List.map_cons, List.nodup_cons] at h
      by_cases hs : sid' = sid
      · subst hs
        rw [unregister, if_pos rfl]
        exact unregister_of_not_mem _ _ h.1
      · rw [unregister, if_neg hs, unregister, if_neg hs, ih h.2]

theorem leaveRoom_idem (r : String) (c : Nat) (rooms : RoomReg)
    (hkeys : roomKeysNodup rooms) (hmem : memberSetsNodup rooms) :
    leaveRoom r c (leaveRoom r c rooms) = leaveRoom r c rooms := by
  induction rooms with
  | nil => rfl
  | cons p rest ih =>
      obtain ⟨r', ms⟩ := p
      rw [roomKeysNodup, List.map_cons, List.nodup_cons] at hkeys
      have hmsn : ms.Nodup := hmem (r', ms) (List.mem_cons_self _ _)
      have hmemr : memberSetsNodup rest := fun p hp => hmem p (List.mem_cons_of_mem _ hp)
      by_cases hr : r' = r
      · subst hr
        rw [leaveRoom, if_pos rfl]
        by_cases he : ms.erase c = []
        · rw [if_pos he]
          exact leaveRoom_of_not_mem _ _ _ hkeys.1
        · rw [if_neg he]
          have hnc : c ∉ ms.erase c := fun hc =>
            ((List.Nodup.mem_erase_iff hmsn).1 hc).1 rfl
          rw [leaveRoom, if_pos rfl, List.erase_of_not_mem hnc, if_neg he]
      · rw [leaveRoom, if_neg hr, leaveRoom, if_neg hr, ih hkeys.2 hmemr]

theorem leaveRoom_absent (r : String) (c : Nat) (rooms : RoomReg)
    (horphan : noOrphanRooms rooms)
    (h : ∀ ms, lookupRoom r rooms = some ms → c ∉ ms) :
    leaveRoom r c rooms = rooms := by
  induction rooms with
  | nil => rfl
  | cons p rest ih =>
      obtain ⟨r', ms⟩ := p
      have horr : noOrphanRooms rest := fun p hp => horphan p (List.mem_cons_of_mem _ hp)
      by_cases hr : r' = r
      · have hc : c ∉ ms := h ms (by rw [lookupRoom, if_pos hr])
        have hne : ms ≠ [] := horphan (r', ms) (List.mem_cons_self _ _)
        rw [leaveRoom, if_pos hr, List.erase_of_not_mem hc, if_neg hne]
      · rw [leaveRoom, if_neg hr, ih horr]
        intro ms2 hl
        exact h ms2 (by rw [lookupRoom, if_neg hr]; exact hl)

theorem lookupRoom_leaveRoom_singleton (r : String) (c : Nat) (rooms : RoomReg)
    (hkeys : roomKeysNodup rooms) (h : lookupRoom r rooms = some [c]) :
    lookupRoom r (leaveRoom r c rooms) = none := by
  induction rooms with
  | nil => simp [lookupRoom] at h
  | cons p rest ih =>
      obtain ⟨r', ms⟩ := p
      rw [roomKeysNodup, List.map_cons, List.nodup_cons] at hkeys
      by_cases hr : r' = r
      · rw [lookupRoom, if_pos hr] at h
        have hms : ms = [c] := by injection h
        subst hms
        rw [leaveRoom, if_pos hr, if_pos (by simp)]
        exact lookupRoom_eq_none_of_not_mem _ _ (hr ▸ hkeys.1)
      · rw [lookupRoom, if_neg hr] at h
        rw [leaveRoom, if_neg hr, lookupRoom, if_neg hr]
        exact ih hkeys.2 h

theorem createTask_calls (t : Task) (i : Except String Nat) (call : DispatchCall)
    (h : call ∈ (createTask t i).1) : call = ⟨.TASK_CREATED, t⟩ := by
  cases i with
  | error e => simp [createTask] at h
  | ok n => simpa [createTask] using h

theorem updateTask_calls (t : Task) (u : Except String Nat) (call : DispatchCall)
    (h : call ∈ (updateTask t u).1) : call = ⟨.TASK_UPDATED, t⟩ := by
  cases u with
  | error e => simp [updateTask] at h
  | ok n =>
      by_cases hn : n = 0
      · simp [updateTask, hn] at h
      · simpa [updateTask, hn] using h

theorem deleteTask_calls (t : Task) (d : Except String Nat) (call : DispatchCall)
    (h : call ∈ (deleteTask t d).1) : call = ⟨.TASK_DELETED, t⟩ := by
  cases d with
  | error e => simp [deleteTask] at h
  | ok n =>
      by_cases hn : n = 0
      · simp [deleteTask, hn] at h
      · simpa [deleteTask, hn] using h

theorem sessionAttempt_shape (action : TaskAction) (task : Task) (now : Nat)
    (s : Session) (pl : Payload) (h : sessionAttempt action task now s = some pl) :
    pl = .taskPB task ∨
      pl = .envelope ⟨notificationTypeMap action, some task, actionMessage action, now⟩ := by
  obtain ⟨uid, cid, kind⟩ := s
  cases kind with
  | notifications =>
      simp only [sessionAttempt] at h
      exact Or.inr (by injection h with h2; exact h2.symm)
  | taskStream b =>
      simp only [sessionAttempt] at h
      split at h
      · exact Or.inl (by injection h with h2; exact h2.symm)
      · exact absurd h (by simp)

theorem write_from_attempt (action : TaskAction) (task : Task) (now : Nat)
    (broken : List Nat) (sessions : SessionReg) (c : Nat) (pl : Payload)
    (h : (c, pl) ∈ (notifyStreams action task now broken sessions).1) :
    ∃ sid s, (sid, s) ∈ sessions ∧ sessionAttempt action task now s = some pl := by
  rw [notifyStreams_characterized] at h
  dsimp only at h
  rw [List.mem_filterMap] at h
  obtain ⟨⟨sid, s⟩, hmem, hf⟩ := h
  by_cases h1 : s.userId = task.userId
  · cases hA : sessionAttempt action task now s with
    | none => simp [h1, hA] at hf
    | some pl2 =>
        by_cases h2 : s.connId ∈ broken
        · simp [h1, hA, h2] at hf
        · simp [h1, hA, h2] at hf
          exact ⟨sid, s, hmem, by rw [hA, hf.2]⟩
  · simp [h1] at hf

/-! ## Claims -/

/-- C1, counterexample: with room `"general"` holding the two connections 1
and 2, where connection 1 is the sending connection (the `call` that joined
and now sends `" hello "`), the Chat handler broadcasts the trimmed text with
`exceptCall = null`, so the sender itself receives a copy — refuting the
claim that the sending connection receives no copy of the message. -/
theorem c1_sender_receives_own_message :
    handleText ⟨"u1", "alice"⟩ "general" " hello " 5 [] [("general", [1, 2])] =
      [(1, ⟨"general", "hello", "u1", "alice", 5, 0⟩),
       (2, ⟨"general", "hello", "u1", "alice", 5, 0⟩)] := by
  decide

/-- C1, amended: for every chat stream in the Joined state and every inbound
message whose text is non-empty after trimming, the Chat handler broadcasts
the trimmed text as a Text-type message (type 0) to every member of the
joined room whose write does not fail — including the sending connection,
since `_broadcast` is called with `null` as the exclusion argument. -/
theorem c1_text_broadcast_to_all_members (user : ChatUser) (room text : String)
    (now : Nat) (broken : List Nat) (rooms : RoomReg) (ms : List Nat)
    (hroom : lookupRoom room rooms = some ms) (htext : jsTrim text ≠ "") :
    handleText user room text now broken rooms =
      (ms.filter (fun c => !broken.contains c)).map
        (fun c => (c, ⟨room, jsTrim text, user.id, user.username, now, 0⟩)) := by
  unfold handleText chatBroadcast
  rw [if_pos htext, hroom]
  exact broadcastWrites_no_exclusion _ _ _

/-- C1, witness: the amended theorem evaluated in a room with members 1 and 2
and no failing writes. -/
theorem c1_text_broadcast_to_all_members_witness :
    lookupRoom "general" [("general", [1, 2])] = some [1, 2]
    ∧ jsTrim " hello " ≠ ""
    ∧ handleText ⟨"u1", "alice"⟩ "general" " hello " 5 [] [("general", [1, 2])] =
        (([1, 2].filter (fun c => !([] : List Nat).contains c)).map
          (fun c => (c, ⟨"general", jsTrim " hello ", "u1", "alice", 5, 0⟩))) :=
  ⟨by decide, by decide,
   c1_text_broadcast_to_all_members ⟨"u1", "alice"⟩ "general" " hello " 5 []
     [("general", [1, 2])] [1, 2] (by decide) (by decide)⟩

/-- C2, counterexample: room `"g"` has the three members 1, 2, 3 and the
write to member 2 always fails.  `_broadcast` delivers to the two other
members, but member 2 is **not** removed from the room's member set (the
`catch` block is empty) — refuting the removal half of the claim for the
chat side. -/
theorem c2_failing_member_not_removed :
    chatBroadcast "g" ⟨"g", "oi", "u1", "alice", 9, 0⟩ none [2] [("g", [1, 2, 3])] =
      ([(1, ⟨"g", "oi", "u1", "alice", 9, 0⟩), (3, ⟨"g", "oi", "u1", "alice", 9, 0⟩)],
       [("g", [1, 2, 3])]) := by
  decide

/-- C2, amended: when exactly the write to connection `k` fails, a chat
broadcast still delivers to every other member and leaves the member set
unchanged (the failing member is **not** removed); task/notification dispatch
still delivers to every other matching session and removes exactly the
sessions whose attempted write failed from the session registry. -/
theorem c2_partial_failure_isolation (msg : ChatMessage) (room : String)
    (rooms : RoomReg) (ms : List Nat) (k : Nat) (action : TaskAction) (task : Task)
    (now : Nat) (sessions : SessionReg)
    (hroom : lookupRoom room rooms = some ms) :
    ((chatBroadcast room msg none [k] rooms).1 =
        (ms.filter (fun c => c != k)).map (fun c => (c, msg))
      ∧ (chatBroadcast room msg none [k] rooms).2 = rooms)
    ∧ ((notifyStreams action task now [k] sessions).1 =
        sessions.filterMap (fun p =>
          if p.2.userId = task.userId ∧ p.2.connId ≠ k then
            (sessionAttempt action task now p.2).map (fun pl => (p.2.connId, pl))
          else none)
      ∧ (notifyStreams action task now [k] sessions).2 =
        sessions.filter (fun p =>
          !(p.2.userId == task.userId &&
            ((sessionAttempt action task now p.2).isSome && p.2.connId == k)))) := by
  refine ⟨⟨?_, ?_⟩, ?_, ?_⟩
  · unfold chatBroadcast
    rw [hroom]
    dsimp only
    rw [broadcastWrites_no_exclusion]
    congr 1
    apply List.filter_congr
    intro c _
    by_cases h : c = k <;> simp [h]
  · unfold chatBroadcast; rw [hroom]
  · rw [notifyStreams_characterized]
    dsimp only
    congr 1
    funext p
    by_cases h1 : p.2.userId = task.userId
    · cases hA : sessionAttempt action task now p.2 with
      | none => simp [h1, hA]
      | some pl =>
          by_cases h2 : p.2.connId = k <;> simp [h1, hA, h2]
    · simp [h1]
  · rw [notifyStreams_characterized]
    dsimp only
    congr 1
    funext p
    by_cases h : p.2.connId = k <;> simp [h, contains_singleton]

/-- C2, witness: the amended theorem evaluated on a three-member room with
member 2 failing and a one-session registry whose write fails. -/
theorem c2_partial_failure_isolation_witness :
    lookupRoom "g" [("g", [1, 2, 3])] = some [1, 2, 3]
    ∧ (((chatBroadcast "g" ⟨"g", "oi", "u1", "alice", 9, 0⟩ none [2] [("g", [1, 2, 3])]).1 =
          (([1, 2, 3].filter (fun c => c != 2)).map
            (fun c => (c, (⟨"g", "oi", "u1", "alice", 9, 0⟩ : ChatMessage))))
        ∧ (chatBroadcast "g" ⟨"g", "oi", "u1", "alice", 9, 0⟩ none [2] [("g", [1, 2, 3])]).2 =
            [("g", [1, 2, 3])])
      ∧ ((notifyStreams .TASK_CREATED ⟨"t", "T", false, "u1"⟩ 7 [2]
            [("s1", ⟨"u1", 2, .notifications⟩)]).1 =
          ([("s1", (⟨"u1", 2, .notifications⟩ : Session))].filterMap (fun p =>
            if p.2.userId = (⟨"t", "T", false, "u1"⟩ : Task).userId ∧ p.2.connId ≠ 2 then
              (sessionAttempt .TASK_CREATED ⟨"t", "T", false, "u1"⟩ 7 p.2).map
                (fun pl => (p.2.connId, pl))
            else none))
        ∧ (notifyStreams .TASK_CREATED ⟨"t", "T", false, "u1"⟩ 7 [2]
            [("s1", ⟨"u1", 2, .notifications⟩)]).2 =
          ([("s1", (⟨"u1", 2, .notifications⟩ : Session))].filter (fun p =>
            !(p.2.userId == (⟨"t", "T", false, "u1"⟩ : Task).userId &&
              ((sessionAttempt .TASK_CREATED ⟨"t", "T", false, "u1"⟩ 7 p.2).isSome &&
                p.2.connId == 2)))))) :=
  ⟨by decide,
   c2_partial_failure_isolation ⟨"g", "oi", "u1", "alice", 9, 0⟩ "g" [("g", [1, 2, 3])]
     [1, 2, 3] 2 .TASK_CREATED ⟨"t", "T", false, "u1"⟩ 7
     [("s1", ⟨"u1", 2, .notifications⟩)] (by decide)⟩

/-- C3: for every dispatched `TASK_DELETED` event, the writes of
`notifyStreams` are exactly one notification envelope
`{type: 2, task, message: "Tarefa task deleted", timestamp}` per
NotificationStream session with matching owner and working connection — in
particular no TaskStream session receives any payload, regardless of its
filter, and the envelope carries the action type, the task, a message and a
timestamp. -/
theorem c3_deleted_event_dispatch (task : Task) (now : Nat) (broken : List Nat)
    (sessions : SessionReg) :
    notifyStreams .TASK_DELETED task now broken sessions =
      (sessions.filterMap (fun p =>
          if p.2.userId = task.userId ∧ p.2.kind = SessionKind.notifications
             ∧ p.2.connId ∉ broken then
            some (p.2.connId, .envelope ⟨2, some task, "Tarefa task deleted", now⟩)
          else none),
       sessions.filter (fun p =>
          !(p.2.userId == task.userId && (p.2.kind == SessionKind.notifications &&
            broken.contains p.2.connId)))) := by
  rw [notifyStreams_characterized]
  refine Prod.ext ?_ ?_
  · dsimp only
    congr 1
    funext p
    by_cases h1 : p.2.userId = task.userId
    · cases hk : p.2.kind with
      | taskStream b =>
          have hA : sessionAttempt .TASK_DELETED task now p.2 = none := by
            simp [sessionAttempt, hk]
          simp [h1, hk, hA]
      | notifications =>
          have hA : sessionAttempt .TASK_DELETED task now p.2 =
              some (.envelope ⟨2, some task, actionMessage .TASK_DELETED, now⟩) := by
            simp [sessionAttempt, hk, notificationTypeMap]
          by_cases h2 : p.2.connId ∈ broken <;>
            simp [h1, hk, hA, h2, actionMessage_deleted]
    · simp [h1]
  · dsimp only
    congr 1
    funext p
    cases hk : p.2.kind with
    | taskStream b =>
        have hA : sessionAttempt .TASK_DELETED task now p.2 = none := by
          simp [sessionAttempt, hk]
        simp [hA, hk]
    | notifications =>
        have hA : (sessionAttempt .TASK_DELETED task now p.2).isSome = true := by
          simp [sessionAttempt, hk]
        simp [hA, hk]

/-- C4: a TaskStream session for the event's owner with a present boolean
`completed` filter receives a dispatched non-Deleted event exactly when the
filter value equals the task's `completed` value; with the filter absent the
event is always delivered. -/
theorem c4_taskstream_filter_correct (sid uid : String) (cid : Nat) (task : Task)
    (action : TaskAction) (now : Nat) (f : Bool)
    (hact : action ≠ .TASK_DELETED) (huid : uid = task.userId) :
    ((notifyStreams action task now [] [(sid, ⟨uid, cid, .taskStream (some f)⟩)]).1
      = if f = task.completed then [(cid, .taskPB task)] else [])
    ∧ (notifyStreams action task now [] [(sid, ⟨uid, cid, .taskStream none⟩)]).1
      = [(cid, .taskPB task)] := by
  subst huid
  constructor
  · by_cases hf : f = task.completed <;>
      simp [notifyStreams, sessionAttempt, hf, hact]
  · simp [notifyStreams, sessionAttempt, hact]

/-- C4, witness: the filter theorem at a `TASK_UPDATED` event for a completed
task, with a `completed=true` filter and with an absent filter. -/
theorem c4_taskstream_filter_correct_witness :
    (TaskAction.TASK_UPDATED ≠ TaskAction.TASK_DELETED)
    ∧ ("u1" = (⟨"t", "T", true, "u1"⟩ : Task).userId)
    ∧ ((notifyStreams .TASK_UPDATED ⟨"t", "T", true, "u1"⟩ 3 []
          [("s", ⟨"u1", 7, .taskStream (some true)⟩)]).1
        = if true = (⟨"t", "T", true, "u1"⟩ : Task).completed then
            [(7, .taskPB ⟨"t", "T", true, "u1"⟩)]
          else [])
    ∧ (notifyStreams .TASK_UPDATED ⟨"t", "T", true, "u1"⟩ 3 []
          [("s", ⟨"u1", 7, .taskStream none⟩)]).1
        = [(7, .taskPB ⟨"t", "T", true, "u1"⟩)] :=
  ⟨by decide, by decide,
   (c4_taskstream_filter_correct "s" "u1" 7 ⟨"t", "T", true, "u1"⟩ .TASK_UPDATED 3 true
     (by decide) (by decide)).1,
   (c4_taskstream_filter_correct "s" "u1" 7 ⟨"t", "T", true, "u1"⟩ .TASK_UPDATED 3 true
     (by decide) (by decide)).2⟩

/-- C5: owner isolation — every write performed by `notifyStreams` for a task
event goes to the connection of a registered session whose `userId` equals
the event task's `userId`; no session of another owner ever receives a
payload. -/
theorem c5_owner_isolation (action : TaskAction) (task : Task) (now : Nat)
    (broken : List Nat) (sessions : SessionReg) (c : Nat) (pl : Payload)
    (h : (c, pl) ∈ (notifyStreams action task now broken sessions).1) :
    ∃ sid s, (sid, s) ∈ sessions ∧ s.connId = c ∧ s.userId = task.userId := by
  rw [notifyStreams_characterized] at h
  dsimp only at h
  rw [List.mem_filterMap] at h
  obtain ⟨⟨sid, s⟩, hmem, hf⟩ := h
  by_cases h1 : s.userId = task.userId
  · refine ⟨sid, s, hmem, ?_, h1⟩
    cases hA : sessionAttempt action task now s with
    | none => simp [h1, hA] at hf
    | some pl2 =>
        by_cases h2 : s.connId ∈ broken
        · simp [h1, hA, h2] at hf
        · simp [h1, hA, h2] at hf
          exact hf.1
  · simp [h1] at hf

/-- C5, witness: a delivered notification write traced back to its matching
session. -/
theorem c5_owner_isolation_witness :
    (4, Payload.envelope ⟨0, some ⟨"t", "T", false, "u1"⟩, "Tarefa task created", 7⟩) ∈
      (notifyStreams .TASK_CREATED ⟨"t", "T", false, "u1"⟩ 7 []
        [("s", ⟨"u1", 4, .notifications⟩)]).1
    ∧ ∃ sid s, (sid, s) ∈ [("s", (⟨"u1", 4, .notifications⟩ : Session))]
        ∧ s.connId = 4 ∧ s.userId = (⟨"t", "T", false, "u1"⟩ : Task).userId :=
  ⟨by decide,
   c5_owner_isolation .TASK_CREATED ⟨"t", "T", false, "u1"⟩ 7 []
     [("s", ⟨"u1", 4, .notifications⟩)] 4
     (.envelope ⟨0, some ⟨"t", "T", false, "u1"⟩, "Tarefa task created", 7⟩) (by decide)⟩

/-- C6: the no-orphan-rooms invariant — a room key is present iff members
exist — is preserved by join and leave; joining an absent room creates its
entry with exactly the joining connection; a leave that empties the member
set deletes the room entry in the same operation, and a subsequent join of
the same name recreates the room fresh with only the new member. -/
theorem c6_room_registry_invariant (rooms : RoomReg) (r : String) (c c2 : Nat) :
    (noOrphanRooms rooms → noOrphanRooms (joinRoom r c rooms))
    ∧ (noOrphanRooms rooms → noOrphanRooms (leaveRoom r c rooms))
    ∧ (lookupRoom r rooms = none → lookupRoom r (joinRoom r c rooms) = some [c])
    ∧ (roomKeysNodup rooms → lookupRoom r rooms = some [c] →
        lookupRoom r (leaveRoom r c rooms) = none
        ∧ lookupRoom r (joinRoom r c2 (leaveRoom r c rooms)) = some [c2]) :=
  ⟨noOrphanRooms_joinRoom rooms r c,
   noOrphanRooms_leaveRoom rooms r c,
   lookupRoom_joinRoom_of_none rooms r c,
   fun hk hl =>
     ⟨lookupRoom_leaveRoom_singleton r c rooms hk hl,
      lookupRoom_joinRoom_of_none _ r c2 (lookupRoom_leaveRoom_singleton r c rooms hk hl)⟩⟩

/-- C6, witness: room `"general"` with the single member 1 — the invariant
holds after a join, the room entry disappears when the last member leaves,
and a subsequent join by connection 2 recreates it with only connection 2;
joining the absent room `"sala"` creates it with its first member. -/
theorem c6_room_registry_invariant_witness :
    noOrphanRooms [("general", [1])]
    ∧ roomKeysNodup [("general", [1])]
    ∧ lookupRoom "general" [("general", [1])] = some [1]
    ∧ noOrphanRooms (joinRoom "general" 1 [("general", [1])])
    ∧ lookupRoom "sala" (joinRoom "sala" 3 []) = some [3]
    ∧ lookupRoom "general" (leaveRoom "general" 1 [("general", [1])]) = none
    ∧ lookupRoom "general" (joinRoom "general" 2 (leaveRoom "general" 1 [("general", [1])]))
        = some [2] :=
  ⟨by decide, by decide, by decide,
   (c6_room_registry_invariant [("general", [1])] "general" 1 2).1 (by decide),
   (c6_room_registry_invariant [] "sala" 3 0).2.2.1 (by decide),
   ((c6_room_registry_invariant [("general", [1])] "general" 1 2).2.2.2
     (by decide) (by decide)).1,
   ((c6_room_registry_invariant [("general", [1])] "general" 1 2).2.2.2
     (by decide) (by decide)).2⟩

/-- C7, counterexample: a `createTask` whose `INSERT` resolves with
`changes = 0` still dispatches a `TASK_CREATED` event — `createTask` never
inspects the affected-row count, refuting the zero-rows half of the claim
for the create mutation. -/
theorem c7_create_zero_changes_still_dispatches :
    createTask ⟨"t1", "Titulo", false, "u1"⟩ (.ok 0) =
      ([⟨.TASK_CREATED, ⟨"t1", "Titulo", false, "u1"⟩⟩], true) := by
  decide

/-- C7, amended: a failed store write prevents dispatch for all three
mutations, and a zero-row result prevents dispatch for update and delete;
dispatch happens only after the store write resolved successfully (for
create, any successful insert dispatches, without inspecting the row
count). -/
theorem c7_dispatch_only_after_commit (t : Task) (i u d : Except String Nat)
    (e : String) :
    (createTask t (.error e)).1 = []
    ∧ (updateTask t (.error e)).1 = []
    ∧ (updateTask t (.ok 0)).1 = []
    ∧ (deleteTask t (.error e)).1 = []
    ∧ (deleteTask t (.ok 0)).1 = []
    ∧ ((createTask t i).1 ≠ [] → ∃ n, i = .ok n)
    ∧ ((updateTask t u).1 ≠ [] → ∃ n, u = .ok n ∧ n ≠ 0)
    ∧ ((deleteTask t d).1 ≠ [] → ∃ n, d = .ok n ∧ n ≠ 0) := by
  refine ⟨rfl, rfl, rfl, rfl, rfl, ?_, ?_, ?_⟩
  · intro h
    cases i with
    | error e2 => exact absurd rfl h
    | ok n => exact ⟨n, rfl⟩
  · intro h
    cases u with
    | error e2 => exact absurd rfl h
    | ok n =>
        refine ⟨n, rfl, ?_⟩
        intro hn
        subst hn
        exact absurd rfl h
  · intro h
    cases d with
    | error e2 => exact absurd rfl h
    | ok n =>
        refine ⟨n, rfl, ?_⟩
        intro hn
        subst hn
        exact absurd rfl h

/-- C7, witness: the amended theorem at a concrete task with successful
one-row store writes, plus its unconditional no-dispatch-on-error parts. -/
theorem c7_dispatch_only_after_commit_witness :
    (createTask ⟨"t1", "Titulo", false, "u1"⟩ (.error "falha")).1 = []
    ∧ (updateTask ⟨"t1", "Titulo", false, "u1"⟩ (.ok 0)).1 = []
    ∧ ((createTask ⟨"t1", "Titulo", false, "u1"⟩ (.ok 1)).1 ≠ [])
    ∧ (∃ n, (.ok 1 : Except String Nat) = .ok n)
    ∧ (∃ n, (.ok 1 : Except String Nat) = .ok n ∧ n ≠ 0) :=
  ⟨(c7_dispatch_only_after_commit ⟨"t1", "Titulo", false, "u1"⟩ (.ok 1) (.ok 1) (.ok 1)
      "falha").1,
   (c7_dispatch_only_after_commit ⟨"t1", "Titulo", false, "u1"⟩ (.ok 1) (.ok 1) (.ok 1)
      "falha").2.2.1,
   by decide,
   (c7_dispatch_only_after_commit ⟨"t1", "Titulo", false, "u1"⟩ (.ok 1) (.ok 1) (.ok 1)
      "falha").2.2.2.2.2.1 (by decide),
   (c7_dispatch_only_after_commit ⟨"t1", "Titulo", false, "u1"⟩ (.ok 1) (.ok 1) (.ok 1)
      "falha").2.2.2.2.2.2.1 (by decide)⟩

/-- C8: session unregistration and room leave are idempotent on the registry
state, and applying them to an absent session id or connection leaves the
state unchanged (both operations are total, so no error can be raised); the
uniqueness hypotheses hold for every reachable registry since `Map` keys are
unique and `Set`s hold no duplicates. -/
theorem c8_cleanup_idempotent (sid : String) (sessions : SessionReg) (r : String)
    (c : Nat) (rooms : RoomReg) :
    (sessionKeysNodup sessions →
      unregister sid (unregister sid sessions) = unregister sid sessions)
    ∧ (sid ∉ sessions.map Prod.fst → unregister sid sessions = sessions)
    ∧ (roomKeysNodup rooms → memberSetsNodup rooms →
        leaveRoom r c (leaveRoom r c rooms) = leaveRoom r c rooms)
    ∧ (noOrphanRooms rooms → (∀ ms, lookupRoom r rooms = some ms → c ∉ ms) →
        leaveRoom r c rooms = rooms) :=
  ⟨unregister_idem sid sessions,
   unregister_of_not_mem sid sessions,
   leaveRoom_idem r c rooms,
   leaveRoom_absent r c rooms⟩

/-- C8, witness: double unregistration of session `"a"`, unregistration of
the absent id `"zz"`, double leave of connection 1, and leave of the absent
connection 5, all on concrete registries. -/
theorem c8_cleanup_idempotent_witness :
    sessionKeysNodup [("a", (⟨"u", 1, .notifications⟩ : Session))]
    ∧ unregister "a" (unregister "a" [("a", (⟨"u", 1, .notifications⟩ : Session))])
        = unregister "a" [("a", (⟨"u", 1, .notifications⟩ : Session))]
    ∧ unregister "zz" [("a", (⟨"u", 1, .notifications⟩ : Session))]
        = [("a", (⟨"u", 1, .notifications⟩ : Session))]
    ∧ leaveRoom "g" 1 (leaveRoom "g" 1 [("g", [1, 2])]) = leaveRoom "g" 1 [("g", [1, 2])]
    ∧ leaveRoom "g" 5 [("g", [1, 2])] = [("g", [1, 2])] :=
  ⟨by decide,
   (c8_cleanup_idempotent "a" [("a", ⟨"u", 1, .notifications⟩)] "g" 1 [("g", [1, 2])]).1
     (by decide),
   (c8_cleanup_idempotent "zz" [("a", ⟨"u", 1, .notifications⟩)] "g" 1 [("g", [1, 2])]).2.1
     (by decide),
   (c8_cleanup_idempotent "a" [("a", ⟨"u", 1, .notifications⟩)] "g" 1 [("g", [1, 2])]).2.2.1
     (by decide) (by decide),
   (c8_cleanup_idempotent "a" [("a", ⟨"u", 1, .notifications⟩)] "g" 5 [("g", [1, 2])]).2.2.2
     (by decide)
     (by
       intro ms hms
       simp [lookupRoom] at hms
       subst hms
       decide)⟩

/-- C9: opening a notification stream with a valid token registers the
session and writes exactly one initial envelope in the same synchronous step
(before any dispatched event can reach the connection); the envelope has
type 0 — the same numeric type `notificationTypeMap` assigns to a
`TASK_CREATED` event — the message `'Stream de notificações iniciado'`, the
current timestamp and a null task. -/
theorem c9_initial_notification_envelope (userId sid : String) (conn now : Nat)
    (sessions : SessionReg) :
    (streamNotifications userId sid conn now sessions).2
        = [(conn, .envelope ⟨0, none, "Stream de notificações iniciado", now⟩)]
    ∧ notificationTypeMap .TASK_CREATED = 0
    ∧ (streamNotifications userId sid conn now sessions).1
        = sessions ++ [(sid, ⟨userId, conn, .notifications⟩)] :=
  ⟨rfl, rfl, rfl⟩

/-- C10: every dispatcher call made by the three mutation handlers uses one
of the actions `TASK_CREATED`, `TASK_UPDATED`, `TASK_DELETED` — never
`TASK_COMPLETED` (completing a task goes through `updateTask` and is
dispatched as `TASK_UPDATED`) — so no write produced by `notifyStreams` for
such a call ever carries a notification envelope of type 3, even though the
dispatcher's action map defines that type. -/
theorem c10_no_completed_action_dispatched (t1 t2 t3 : Task)
    (i u d : Except String Nat) (call : DispatchCall)
    (h : call ∈ (createTask t1 i).1 ++ (updateTask t2 u).1 ++ (deleteTask t3 d).1) :
    call.action ≠ .TASK_COMPLETED
    ∧ ∀ (now : Nat) (broken : List Nat) (sessions : SessionReg) (c : Nat) (pl : Payload),
        (c, pl) ∈ (notifyStreams call.action call.task now broken sessions).1 →
        envelopeType pl ≠ some 3 := by
  have hact : call.action ≠ .TASK_COMPLETED := by
    rcases List.mem_append.1 h with h1 | h1
    · rcases List.mem_append.1 h1 with h2 | h2
      · rw [createTask_calls t1 i call h2]
        exact fun hx => TaskAction.noConfusion hx
      · rw [updateTask_calls t2 u call h2]
        exact fun hx => TaskAction.noConfusion hx
    · rw [deleteTask_calls t3 d call h1]
      exact fun hx => TaskAction.noConfusion hx
  refine ⟨hact, ?_⟩
  intro now broken sessions c pl hw
  obtain ⟨sid, s, _, hA⟩ := write_from_attempt _ _ _ _ _ _ _ hw
  rcases sessionAttempt_shape _ _ _ _ _ hA with hpl | hpl
  · subst hpl; simp [envelopeType]
  · subst hpl
    simp only [envelopeType, ne_eq, Option.some.injEq]
    intro hEq
    refine hact ?_
    cases hc : call.action with
    | TASK_CREATED => rw [hc] at hEq; exact absurd hEq (by decide)
    | TASK_UPDATED => rw [hc] at hEq; exact absurd hEq (by decide)
    | TASK_DELETED => rw [hc] at hEq; exact absurd hEq (by decide)
    | TASK_COMPLETED => rfl

/-- C10, witness: a successful create dispatches `TASK_CREATED`, whose
envelope to a matching notification session has type 0, not 3. -/
theorem c10_no_completed_action_dispatched_witness :
    (⟨.TASK_CREATED, ⟨"t", "T", false, "u"⟩⟩ : DispatchCall) ∈
      (createTask ⟨"t", "T", false, "u"⟩ (.ok 1)).1
        ++ (updateTask ⟨"t", "T", false, "u"⟩ (.ok 1)).1
        ++ (deleteTask ⟨"t", "T", false, "u"⟩ (.ok 1)).1
    ∧ (⟨.TASK_CREATED, ⟨"t", "T", false, "u"⟩⟩ : DispatchCall).action ≠ .TASK_COMPLETED
    ∧ envelopeType
        (.envelope ⟨0, some ⟨"t", "T", false, "u"⟩, "Tarefa task created", 7⟩) ≠ some 3 :=
  ⟨by decide,
   (c10_no_completed_action_dispatched ⟨"t", "T", false, "u"⟩ ⟨"t", "T", false, "u"⟩
     ⟨"t", "T", false, "u"⟩ (.ok 1) (.ok 1) (.ok 1) ⟨.TASK_CREATED, ⟨"t", "T", false, "u"⟩⟩
     (by decide)).1,
   (c10_no_completed_action_dispatched ⟨"t", "T", false, "u"⟩ ⟨"t", "T", false, "u"⟩
     ⟨"t", "T", false, "u"⟩ (.ok 1) (.ok 1) (.ok 1) ⟨.TASK_CREATED, ⟨"t", "T", false, "u"⟩⟩
     (by decide)).2 7 [] [("s", ⟨"u", 4, .notifications⟩)] 4
     (.envelope ⟨0, some ⟨"t", "T", false, "u"⟩, "Tarefa task created", 7⟩) (by decide)⟩

end GrpcFanout
